import Mathlib

/-!
Verification of `skypy/gravitational_wave/merger_rate.py`
(`abadie_tableIII_merger_rates`), a shallow embedding of the Python source.

The source builds a nested dictionary `abadie_tableIII_dict` whose outer keys
are the population strings and whose inner keys are the optimism strings, and
then evaluates `abadie_tableIII_dict[population, optimism]`.  In Python that
expression indexes the outer dictionary with the single tuple key
`(population, optimism)`; the outer dictionary's keys are strings, and a tuple
never equals a string, so the subscript raises `KeyError` on every call.

The embedding models Python dictionary keys at the two shapes that occur
(a plain string, or a pair of strings), dictionaries as association lists,
luminosities as lists of rationals, and the astropy unit attachment
(`merger_rate / units.year`) as an explicit year-exponent on the result.
-/

/-- A Python dictionary key as it occurs in the source: either a plain string
(the keys stored in `abadie_tableIII_dict`) or a pair of strings (the key
produced by the subscript `abadie_tableIII_dict[population, optimism]`).
Python equality between a string and a tuple is always `False`, which the
derived decidable equality on this inductive reproduces. -/
inductive PyKey where
  | str : String → PyKey
  | tup : String → String → PyKey
deriving DecidableEq, Repr

/-- The exceptions the source can raise: `KeyError k` from a failed dictionary
subscript with key `k`, and `TypeError` (which multiplying a dictionary by an
array would raise, were the outer subscript ever to succeed). -/
inductive PyErr where
  | keyError : PyKey → PyErr
  | typeError : PyErr
deriving DecidableEq, Repr

/-- Python dictionary lookup `d[k]` on an association-list model: the first
binding whose key equals `k`, or `none` (modelling `KeyError`) if no key
matches. -/
def dictLookup {α β : Type} [DecidableEq α] : List (α × β) → α → Option β
  | [], _ => none
  | (k, v) :: rest, key => if k = key then some v else dictLookup rest key

/-- The literal nested dictionary `abadie_tableIII_dict` from the source:
outer keys are the population strings, inner keys the optimism strings,
values the merger-rate coefficients of Abadie et al. (2010), Table III. -/
def abadie_tableIII_dict : List (PyKey × List (String × ℚ)) :=
  [ (PyKey.str "NS-NS", [("low", 0.6),
                         ("realistic", 60),
                         ("high", 600),
                         ("max", 2000)]),
    (PyKey.str "NS-BH", [("low", 0.03),
                         ("realistic", 2),
                         ("high", 60)]),
    (PyKey.str "BH-BH", [("low", 0.006),
                         ("realistic", 0.2),
                         ("high", 20)]) ]

/-- A numeric array carrying an astropy unit: `yearPow` is the exponent of the
unit `year` attached to the values (`-1` after the source's division
`merger_rate / units.year`). -/
structure Quantity where
  value : List ℚ
  yearPow : Int
deriving DecidableEq, Repr

/-- Default of the `population` parameter in the source signature
(`population='NS-NS'`).  A Python call that omits `population` is the same
call with this value supplied. -/
def population_default : String := "NS-NS"

/-- Default of the `optimism` parameter in the source signature
(`optimism='low'`).  A Python call that omits `optimism` is the same call
with this value supplied. -/
def optimism_default : String := "low"

/-- `abadie_tableIII_merger_rates` from the source.  The body evaluates the
subscript `abadie_tableIII_dict[population, optimism]`, i.e. looks up the
tuple key `(population, optimism)` in the outer dictionary.  If the lookup
fails the call raises `KeyError`; if it succeeded the looked-up value would be
an inner dictionary, and multiplying a dictionary by the luminosity array
raises `TypeError`, so that branch is an error as well (it is in fact
unreachable: the outer keys are all strings). -/
def abadie_tableIII_merger_rates (luminosity : List ℚ)
    (population optimism : String) : Except PyErr Quantity :=
  match dictLookup abadie_tableIII_dict (PyKey.tup population optimism) with
  | some _innerDict =>
      -- `innerDict * luminosity` in Python: dict times array is a TypeError.
      Except.error PyErr.typeError
  | none => Except.error (PyErr.keyError (PyKey.tup population optimism))

/-- The subscript key `(population, optimism)` is a tuple, the outer
dictionary's keys are all strings, so the outer lookup fails for every pair
of argument strings. -/
theorem dictLookup_tup_eq_none (p o : String) :
    dictLookup abadie_tableIII_dict (PyKey.tup p o) = none := by
  simp [abadie_tableIII_dict, dictLookup]

/-- C10: the table lookup indexes the outer dictionary with the composite
tuple key `(population, optimism)` rather than performing the nested lookup;
consequently, for every pair of population and optimism strings and every
luminosity input, the call raises `KeyError` and never returns a rate. -/
theorem abadie_tableIII_merger_rates_always_keyError
    (L : List ℚ) (p o : String) :
    abadie_tableIII_merger_rates L p o =
      Except.error (PyErr.keyError (PyKey.tup p o)) := by
  unfold abadie_tableIII_merger_rates
  rw [dictLookup_tup_eq_none]

/-- C8: the optimism parameter defaults to "low"; a call that omits the
optimism argument is the call with the signature's default supplied, and it
produces the same result as passing "low" explicitly, for every luminosity
sequence and population value. -/
theorem abadie_tableIII_merger_rates_default_optimism
    (L : List ℚ) (p : String) :
    abadie_tableIII_merger_rates L p optimism_default =
      abadie_tableIII_merger_rates L p "low" := rfl

/-- C9: the population parameter defaults to "NS-NS"; a call that omits the
population argument is the call with the signature's default supplied, and it
produces the same result as passing "NS-NS" explicitly, for every luminosity
sequence and optimism value. -/
theorem abadie_tableIII_merger_rates_default_population
    (L : List ℚ) (o : String) :
    abadie_tableIII_merger_rates L population_default o =
      abadie_tableIII_merger_rates L "NS-NS" o := rfl

/-- C1: the spec claims the call returns the coefficient-scaled luminosities
for every valid pair; the code instead raises `KeyError` already at the valid
pair ("NS-NS", "low") on input [1], where the claim requires the value
[0.6] per year. -/
theorem abadie_C1_valid_pair_raises :
    abadie_tableIII_merger_rates [1] "NS-NS" "low" =
      Except.error (PyErr.keyError (PyKey.tup "NS-NS" "low")) := rfl

/-- C2: the claim says a `LookupError`-kind failure happens only for
combinations absent from the table; yet ("NS-NS", "realistic") is an entry of
the nested table (nested lookup yields the coefficient 60) and the call with
that combination still raises `KeyError`. -/
theorem abadie_C2_valid_combination_still_fails :
    (dictLookup abadie_tableIII_dict (PyKey.str "NS-NS")).bind
        (fun inner => dictLookup inner "realistic") = some 60 ∧
    abadie_tableIII_merger_rates [1] "NS-NS" "realistic" =
      Except.error (PyErr.keyError (PyKey.tup "NS-NS" "realistic")) :=
  ⟨rfl, rfl⟩

/-- C3: the claim says the call with [10], "NS-NS", "max" returns [20000.0]
per year; the code raises `KeyError` on that input. -/
theorem abadie_C3_NSNS_max_raises :
    abadie_tableIII_merger_rates [10] "NS-NS" "max" =
      Except.error (PyErr.keyError (PyKey.tup "NS-NS" "max")) := rfl

/-- C4: the spec's worked example [2.0, 0.0] with "BH-BH", "high" is claimed
to return [40.0, 0.0] per year; the code raises `KeyError` on that input. -/
theorem abadie_C4_worked_example_raises :
    abadie_tableIII_merger_rates [2, 0] "BH-BH" "high" =
      Except.error (PyErr.keyError (PyKey.tup "BH-BH" "high")) := rfl

/-- C5: the claim says a zero-length luminosity input with a valid pair
returns a zero-length output without error; the code raises `KeyError` on the
empty input with the valid pair ("NS-NS", "low"). -/
theorem abadie_C5_empty_input_raises :
    abadie_tableIII_merger_rates [] "NS-NS" "low" =
      Except.error (PyErr.keyError (PyKey.tup "NS-NS" "low")) := rfl

/-- C6: the scaling property presupposes that valid pairs return rate values;
at k = 2, L = [1, 3] and the valid pair ("NS-NS", "high") both the scaled and
the unscaled call raise `KeyError`, so no returned rates exist to satisfy the
claimed relation. -/
theorem abadie_C6_scaling_premise_fails :
    abadie_tableIII_merger_rates (List.map (fun x => 2 * x) [1, 3])
        "NS-NS" "high" =
      Except.error (PyErr.keyError (PyKey.tup "NS-NS" "high")) ∧
    abadie_tableIII_merger_rates [1, 3] "NS-NS" "high" =
      Except.error (PyErr.keyError (PyKey.tup "NS-NS" "high")) :=
  ⟨rfl, rfl⟩

/-- C7: the claim says every call with a valid pair returns a sequence tagged
with the unit 1/year; the code raises `KeyError` before the unit division is
reached, already at the valid pair ("BH-BH", "low") on input [1]. -/
theorem abadie_C7_no_unit_tagged_result :
    abadie_tableIII_merger_rates [1] "BH-BH" "low" =
      Except.error (PyErr.keyError (PyKey.tup "BH-BH" "low")) := rfl
